import Mathlib

/-!
Shallow embedding of the wizybot-api tool-call dispatch orchestrator.

The two entry points `AiService.getPrompt` (src/ai/ai.service.ts) and
`ProductsService.aiPrompt` (src/products/products.service.ts) are embedded as
pure functions over an explicit environment of external capabilities (the two
chat-completion rounds, the JSON argument parser, and the tool handlers), and
they return both the JS-level result and a trace of the external events they
caused, in order.  The pure parts of the tool handlers (`searchProduct`,
`convertCurrencies`) are embedded directly, with the network fetch and the
Date parser as explicit capabilities.
-/

namespace Wizybot

/-- Rendering of a possibly-undefined JS string in a template literal:
an absent field prints as "undefined". -/
def jsStr : Option String → String
  | some s => s
  | none => "undefined"

/-- Rendering of a possibly-undefined JS number in a template literal. -/
def jsNum : Option ℚ → String
  | some q => toString q
  | none => "undefined"

/-- JS `s.toLowerCase()`, modelled as character-wise lowercasing. -/
def jsToLower (s : String) : String := String.mk (s.data.map Char.toLower)

/-- Roles of chat messages (OpenAI ChatCompletionMessageParam). The services
only ever emit system, user and function roles. -/
inductive Role
  | system
  | user
  | assistant
  | function
  deriving DecidableEq, Repr

/-- One chat message: role, optional name (set on function-role messages), content. -/
structure Message where
  role : Role
  name : Option String
  content : String
  deriving DecidableEq, Repr

/-- The function part of a tool call returned by the completion API. -/
structure ToolCallFn where
  name : String
  arguments : String
  deriving DecidableEq, Repr

/-- One tool call entry of message.tool_calls. -/
structure ToolCall where
  function : ToolCallFn
  deriving DecidableEq, Repr

/-- The assistant message of the first completion round:
`choices[0].message`, with its content and optional tool_calls array.
JS distinguishes an absent tool_calls field (falsy) from a present array. -/
structure ChatMessage where
  content : Option String
  tool_calls : Option (List ToolCall)
  deriving DecidableEq, Repr

/-- Observable outcome of an orchestrator entry point.  `ok`/`fail` are the
structured returns `\x7bok:true, response\x7d` / `\x7bok:false, error\x7d`;
`thrown` is an exception escaping the method (JS throw past its boundary);
`undef` is a JS implicit `return undefined`. -/
inductive JsResult
  | ok (response : Option String)
  | fail (error : String)
  | thrown (msg : String)
  | undef
  deriving DecidableEq, Repr

namespace Dto

/-- Joi schema of src/ai/dto/get-prompt/get-prompt.dto.ts:
`Joi.string().min(10).max(512).required()` applied to the prompt.
Returns the Joi error message when validation fails, `none` when it passes. -/
def getPromptSchemaValidate (prompt : String) : Option String :=
  if prompt.length < 10 then
    some "\x22prompt\x22 length must be at least 10 characters long"
  else if 512 < prompt.length then
    some "\x22prompt\x22 length must be less than or equal to 512 characters long"
  else
    none

end Dto

namespace ProductsService

/-- A product row of data/products_list.csv, as read by csv-parser
(all columns are strings). -/
structure Product where
  displayTitle : String
  embeddingText : String
  url : String
  imageUrl : String
  productType : String
  discount : String
  price : String
  variants : String
  createDate : String
  deriving DecidableEq, Repr

/-- Whether the first character list is an initial segment of the second. -/
def startsWithChars : List Char → List Char → Bool
  | [], _ => true
  | _ :: _, [] => false
  | a :: as, b :: bs => a == b && startsWithChars as bs

/-- Whether the first character list occurs contiguously inside the second. -/
def hasSubChars (needle : List Char) : List Char → Bool
  | [] => needle.isEmpty
  | c :: t => startsWithChars needle (c :: t) || hasSubChars needle t

/-- JS `s.includes(sub)`: sub occurs as a contiguous substring of s. -/
def jsIncludes (s sub : String) : Bool := hasSubChars sub.toList s.toList

/-- The row filter of `searchProduct`:
`row.displayTitle && row.displayTitle.toLowerCase().includes(_search.toLowerCase())`.
An empty displayTitle is falsy in JS, so such rows are rejected by the first
conjunct before the substring test runs. -/
def rowMatches (search : String) (r : Product) : Bool :=
  (r.displayTitle != "") && jsIncludes (jsToLower r.displayTitle) (jsToLower search)

/-- The comparator order of `products.sort((a, b) => new Date(b.createDate).getTime() - new Date(a.createDate).getTime())`:
descending by parsed creation timestamp. -/
def dateDesc (getTime : String → Int) (a b : Product) : Prop :=
  getTime b.createDate ≤ getTime a.createDate

instance (getTime : String → Int) : DecidableRel (dateDesc getTime) := by
  intro a b
  unfold dateDesc
  infer_instance

/-- `ProductsService.searchProduct`: collect the CSV rows whose displayTitle is
truthy and contains the search string case-insensitively, then sort them by
`new Date(createDate).getTime()` descending.  `getTime` is the JS Date parser,
an external capability; `rows` are the parsed CSV rows in file order. -/
def searchProduct (getTime : String → Int) (rows : List Product) (search : String) :
    List Product :=
  List.insertionSort (dateDesc getTime) (rows.filter (rowMatches search))

/-- Parsed JSON body of the Free Currency API response: the HTTP ok flag of the
fetch response, and the `data` rate table mapping a currency code to its quoted
rate (absent when the API did not quote that currency). -/
structure FetchResponse where
  ok : Bool
  data : String → Option ℚ

/-- Return value of `convertCurrencies` on success. -/
structure ConvertResult where
  currency : String
  value : ℚ
  convertedValue : ℚ
  deriving DecidableEq, Repr

/-- `ProductsService.convertCurrencies`: fetch the rate table for the base
currency, throw when the response is not ok, throw when `data.data[currency]`
is JS-falsy (the rate is absent, or is quoted as exactly 0), and otherwise
return `value * exchangeRate` with no rounding.  Every throw, and a rejected
fetch, is caught and replaced by
InternalServerErrorException with message Error converting currencies. -/
def convertCurrencies (fetchRates : String → String → Except String FetchResponse)
    (baseCurrency currency : String) (value : ℚ) : Except String ConvertResult :=
  match fetchRates baseCurrency currency with
  | .error _ => .error "Error converting currencies"
  | .ok response =>
    if !response.ok then .error "Error converting currencies"
    else
      match response.data currency with
      | none => .error "Error converting currencies"
      | some exchangeRate =>
        if exchangeRate = 0 then .error "Error converting currencies"
        else .ok { currency := currency, value := value, convertedValue := value * exchangeRate }

/-- Arguments object produced by `JSON.parse(message.tool_calls[0].function.arguments)`
in `aiPrompt`; a field absent from the JSON reads as undefined. -/
structure FunctionArgs where
  search : Option String
  currency : Option String
  value : Option ℚ
  baseCurrency : Option String
  deriving DecidableEq, Repr

/-- What `aiPrompt` reads from the resolved `convertCurrencies` call. -/
structure ConvOutcome where
  convertedValue : ℚ
  deriving DecidableEq, Repr

/-- External events caused by one run of `aiPrompt`, in order: the two
completion calls with the exact message list each was given, and the tool
handler invocations with the exact arguments each was given. -/
inductive Event
  | round1 (messages : List Message)
  | invokeSearch (search : Option String)
  | invokeConvert (baseCurrency : Option String) (currency : Option String) (value : Option ℚ)
  | round2 (messages : List Message)
  deriving DecidableEq, Repr

/-- Whether an event is a tool-handler invocation. -/
def Event.isInvoke : Event → Bool
  | .invokeSearch _ => true
  | .invokeConvert _ _ _ => true
  | _ => false

/-- The awaited second completion round, identical in both dispatch branches
of `aiPrompt`: a rejected call is caught by the catch block and returned as
the ok:false object, a resolved call yields the ok:true object; the recorded
events are the same either way. -/
def finishRound2 (attempt : Except String (Option String)) (events : List Event) :
    JsResult × List Event :=
  match attempt with
  | .error e => (JsResult.fail ("Error in OpenAI API: " ++ e), events)
  | .ok content => (JsResult.ok content, events)

/-- The external capabilities `aiPrompt` depends on: the first completion
round's outcome (`error` = rejected promise), JSON.parse of the tool-call
arguments, the two tool handlers (`error` = rejected promise / thrown
exception), and the second completion round as a function of the message list
it is given. -/
structure Env where
  firstResponse : Except String ChatMessage
  parseArgs : String → Except String FunctionArgs
  searchProductImpl : Option String → Except String (List Product)
  convertCurrenciesImpl : Option String → Option String → Option ℚ → Except String ConvOutcome
  secondResponse : List Message → Except String (Option String)

/-- `ProductsService.createMessage`: the seed conversation. -/
def createMessage (prompt : String) : List Message :=
  [{ role := Role.system, name := none, content := "You are a helpful assistant." },
   { role := Role.user, name := none, content := prompt }]

/-- The template literal mapped over each matched product in `aiPrompt`. -/
def productSummary (product : Product) : String :=
  "\n                        Product: " ++ product.displayTitle ++
  "\n                        Price: " ++ product.price ++
  "\n                        Discount: " ++ product.discount ++
  "\n                        Type: " ++ product.productType ++
  "\n                        URL: " ++ product.url ++
  "\n                    "

/-- `products.map(template).join(backslash-n backslash-n)`. -/
def productSummaries (products : List Product) : String :=
  String.intercalate "\n\n" (products.map productSummary)

/-- The conversion template literal of `aiPrompt`. -/
def conversionMessage (value : Option ℚ) (baseCurrency currency : Option String)
    (converted : ConvOutcome) : String :=
  "\n                        Convert " ++ jsNum value ++ " " ++ jsStr baseCurrency ++
  " to " ++ jsStr currency ++ ": " ++ toString converted.convertedValue ++ " " ++
  jsStr currency ++ "\n                    "

/-- `ProductsService.aiPrompt`.  Validation failure throws before the try
block.  Inside the try block: first completion round; when `message.tool_calls`
is absent, return the direct content; when it is a present (truthy) array,
read entry 0 (a present empty array makes `tool_calls[0].function` a TypeError,
caught by the catch block), parse its arguments, and dispatch on the function
name: `searchProduct` and `convertCurrencies` each invoke their handler, build
the follow-up message list (seed plus one function-role message) and issue the
second completion round; any other name falls through both if statements and
the method returns undefined.  Every rejection inside the try block is caught
and returned as `\x7bok:false, error: Error in OpenAI API: ...\x7d`. -/
def aiPrompt (env : Env) (prompt : String) : JsResult × List Event :=
  match Dto.getPromptSchemaValidate prompt with
  | some msg => (JsResult.thrown ("Validation error: " ++ msg), [])
  | none =>
    let messages := createMessage prompt
    match env.firstResponse with
    | .error e => (JsResult.fail ("Error in OpenAI API: " ++ e), [Event.round1 messages])
    | .ok firstMessage =>
      match firstMessage.tool_calls with
      | none => (JsResult.ok firstMessage.content, [Event.round1 messages])
      | some [] =>
        (JsResult.fail
          "Error in OpenAI API: Cannot read properties of undefined (reading \x27function\x27)",
         [Event.round1 messages])
      | some (toolCall :: _) =>
        let functionName := toolCall.function.name
        match env.parseArgs toolCall.function.arguments with
        | .error e => (JsResult.fail ("Error in OpenAI API: " ++ e), [Event.round1 messages])
        | .ok functionArgs =>
          if functionName = "searchProduct" then
            match env.searchProductImpl functionArgs.search with
            | .error e =>
              (JsResult.fail ("Error in OpenAI API: " ++ e),
               [Event.round1 messages, Event.invokeSearch functionArgs.search])
            | .ok products =>
              let messages2 := messages ++
                [{ role := Role.function, name := some "searchProduct",
                   content := productSummaries products ++
                     " check the list of products and recommend one to the user" }]
              finishRound2 (env.secondResponse messages2)
                [Event.round1 messages, Event.invokeSearch functionArgs.search,
                 Event.round2 messages2]
          else if functionName = "convertCurrencies" then
            match env.convertCurrenciesImpl functionArgs.baseCurrency functionArgs.currency
                functionArgs.value with
            | .error e =>
              (JsResult.fail ("Error in OpenAI API: " ++ e),
               [Event.round1 messages,
                Event.invokeConvert functionArgs.baseCurrency functionArgs.currency
                  functionArgs.value])
            | .ok converted =>
              let messages2 := messages ++
                [{ role := Role.function, name := some "convertCurrencies",
                   content := conversionMessage functionArgs.value functionArgs.baseCurrency
                     functionArgs.currency converted }]
              finishRound2 (env.secondResponse messages2)
                [Event.round1 messages,
                 Event.invokeConvert functionArgs.baseCurrency functionArgs.currency
                   functionArgs.value,
                 Event.round2 messages2]
          else
            (JsResult.undef, [Event.round1 messages])

end ProductsService

namespace AiService

/-- Shape of the object `getWeather` resolves with, cast to `weatherTypes` by
the caller.  On fetch failure it is `\x7bok:false, error\x7d`, so the weather
fields read as undefined. -/
structure WeatherObj where
  ok : Bool
  city : Option String
  temperature : Option ℚ
  description : Option String
  humidity : Option ℚ
  windSpeed : Option ℚ
  error : Option String
  deriving DecidableEq, Repr

/-- Shape of the object `getPopulation` resolves with, cast to
`populationTypes` by the caller.  Its success object carries no ok flag at all;
its failure object is `\x7bok:false, error\x7d`. -/
structure PopulationObj where
  ok : Option Bool
  city : Option String
  population : Option ℚ
  description : Option String
  temperature : Option ℚ
  humidity : Option ℚ
  windSpeed : Option ℚ
  error : Option String
  deriving DecidableEq, Repr

/-- Arguments object produced by `JSON.parse(toolCall.function.arguments)` in
`getPrompt`; only the city field is ever read. -/
structure PromptArgs where
  city : Option String
  deriving DecidableEq, Repr

/-- External events caused by one run of `getPrompt`, in order. -/
inductive Event
  | round1 (messages : List Message)
  | invokeWeather (city : Option String)
  | invokePopulation (city : Option String)
  | round2 (messages : List Message)
  deriving DecidableEq, Repr

/-- The external capabilities `getPrompt` depends on.  `getWeatherImpl` and
`getPopulationImpl` never reject: the source methods catch their own fetch
errors and resolve with an error-shaped object. -/
structure Env where
  firstResponse : Except String ChatMessage
  parseArgs : String → Except String PromptArgs
  getWeatherImpl : Option String → WeatherObj
  getPopulationImpl : Option String → PopulationObj
  secondResponse : List Message → Except String (Option String)

/-- `AiService.createMessage`: the seed conversation. -/
def createMessage (prompt : String) : List Message :=
  [{ role := Role.system, name := none, content := "You are a helpful assistant." },
   { role := Role.user, name := none, content := prompt }]

/-- `AiService.createMessageWithTool`: the two function-role messages appended
after the tool calls, both named after the requested tool. -/
def createMessageWithTool (toolName : String) (weather : WeatherObj)
    (population : PopulationObj) : List Message :=
  [{ role := Role.function, name := some toolName,
     content := "The population of " ++ jsStr population.city ++ " is " ++
       jsNum population.population ++ ", only this data" },
   { role := Role.function, name := some toolName,
     content := "The weather in " ++ jsStr weather.city ++ " is " ++
       jsStr weather.description ++ ", with a temperature of " ++
       jsNum weather.temperature ++ "°C, a humidity of " ++ jsNum weather.humidity ++
       "% and a wind speed of " ++ jsNum weather.windSpeed ++ "m/s" }]

/-- `AiService.getPrompt`.  Validation failure throws before the try block.
Inside the try block: first completion round; when `message.tool_calls` is
absent, return the direct content; otherwise read tool call 0 (an empty
present array gives a TypeError, caught by the catch block), parse its
arguments, and regardless of the requested tool name call `getWeather` and
then `getPopulation` with the parsed city, append the two messages of
`createMessageWithTool`, and issue the second completion round.  Every
rejection inside the try block is caught and returned as
`\x7bok:false, error: Error in OpenAI API: ...\x7d`. -/
def getPrompt (env : Env) (prompt : String) : JsResult × List Event :=
  match Dto.getPromptSchemaValidate prompt with
  | some msg => (JsResult.thrown ("Validation error: " ++ msg), [])
  | none =>
    let messages := createMessage prompt
    match env.firstResponse with
    | .error e => (JsResult.fail ("Error in OpenAI API: " ++ e), [Event.round1 messages])
    | .ok firstMessage =>
      match firstMessage.tool_calls with
      | none => (JsResult.ok firstMessage.content, [Event.round1 messages])
      | some [] =>
        (JsResult.fail
          "Error in OpenAI API: Cannot read properties of undefined (reading \x27function\x27)",
         [Event.round1 messages])
      | some (toolCall :: _) =>
        match env.parseArgs toolCall.function.arguments with
        | .error e => (JsResult.fail ("Error in OpenAI API: " ++ e), [Event.round1 messages])
        | .ok argument =>
          let city := argument.city
          let toolName := toolCall.function.name
          let weatherResponse := env.getWeatherImpl city
          let populationResponse := env.getPopulationImpl city
          let messages2 := messages ++
            createMessageWithTool toolName weatherResponse populationResponse
          match env.secondResponse messages2 with
          | .error e =>
            (JsResult.fail ("Error in OpenAI API: " ++ e),
             [Event.round1 messages, Event.invokeWeather city, Event.invokePopulation city,
              Event.round2 messages2])
          | .ok content =>
            (JsResult.ok content,
             [Event.round1 messages, Event.invokeWeather city, Event.invokePopulation city,
              Event.round2 messages2])

end AiService

/-! Concrete fixtures used by the counterexamples and witnesses. -/

/-- A catalog row titled Blue Shirt, created at the earliest timestamp t1. -/
def blueShirt : ProductsService.Product :=
  { displayTitle := "Blue Shirt", embeddingText := "a blue shirt", url := "https://shop/blue-shirt",
    imageUrl := "https://img/blue-shirt", productType := "Clothing", discount := "0",
    price := "20", variants := "S,M,L", createDate := "2023-01-01" }

/-- A catalog row titled Red Pants, created at t2. -/
def redPants : ProductsService.Product :=
  { displayTitle := "Red Pants", embeddingText := "red pants", url := "https://shop/red-pants",
    imageUrl := "https://img/red-pants", productType := "Clothing", discount := "5",
    price := "30", variants := "M,L", createDate := "2023-02-01" }

/-- A catalog row titled Shirt Deluxe, created at the latest timestamp t3. -/
def shirtDeluxe : ProductsService.Product :=
  { displayTitle := "Shirt Deluxe", embeddingText := "a deluxe shirt", url := "https://shop/shirt-deluxe",
    imageUrl := "https://img/shirt-deluxe", productType := "Clothing", discount := "10",
    price := "50", variants := "S,M", createDate := "2023-03-01" }

/-- A catalog row whose displayTitle is the empty string (JS-falsy). -/
def emptyTitleRow : ProductsService.Product :=
  { displayTitle := "", embeddingText := "untitled", url := "https://shop/untitled",
    imageUrl := "https://img/untitled", productType := "Misc", discount := "0",
    price := "1", variants := "", createDate := "2023-04-01" }

/-- A concrete Date parser for the fixture dates: t1 < t2 < t3 < t4. -/
def exampleGetTime (d : String) : Int :=
  if d = "2023-01-01" then 1
  else if d = "2023-02-01" then 2
  else if d = "2023-03-01" then 3
  else if d = "2023-04-01" then 4
  else 0

/-- The fixture record set, in CSV file order. -/
def exampleRows : List ProductsService.Product := [blueShirt, redPants, shirtDeluxe]

/-- A currency-API response quoting 0.9 EUR per unit of the base currency. -/
def exampleResponse : ProductsService.FetchResponse :=
  { ok := true, data := fun c => if c = "EUR" then some (9 / 10) else none }

/-- A fetch capability that always yields `exampleResponse`. -/
def exampleFetch : String → String → Except String ProductsService.FetchResponse :=
  fun _ _ => Except.ok exampleResponse

/-- A currency-API response quoting an exchange rate of exactly 0 for EUR. -/
def zeroRateResponse : ProductsService.FetchResponse :=
  { ok := true, data := fun c => if c = "EUR" then some 0 else none }

/-- A currency-API response with no quote at all for the requested currency. -/
def absentRateResponse : ProductsService.FetchResponse :=
  { ok := true, data := fun _ => none }

/-- A prompt of valid length used by the concrete runs. -/
def examplePrompt : String := "Do you have any shirts in stock right now?"

/-- An AiService environment whose every capability fails; used where the
claim makes the capability unreachable or irrelevant. -/
def trivAiEnv : AiService.Env :=
  { firstResponse := Except.error "network down",
    parseArgs := fun _ => Except.error "Unexpected token",
    getWeatherImpl := fun _ =>
      { ok := false, city := none, temperature := none, description := none,
        humidity := none, windSpeed := none, error := some "Weather API error: fail" },
    getPopulationImpl := fun _ =>
      { ok := some false, city := none, population := none, description := none,
        temperature := none, humidity := none, windSpeed := none,
        error := some "Population API error: fail" },
    secondResponse := fun _ => Except.error "network down" }

/-- A ProductsService environment whose every capability fails. -/
def trivPEnv : ProductsService.Env :=
  { firstResponse := Except.error "network down",
    parseArgs := fun _ => Except.error "Unexpected token",
    searchProductImpl := fun _ => Except.error "Error processing CSV file",
    convertCurrenciesImpl := fun _ _ _ => Except.error "Error converting currencies",
    secondResponse := fun _ => Except.error "network down" }

/-- A first-round tool call requesting searchProduct with query zzz. -/
def searchToolCall : ToolCall :=
  { function := { name := "searchProduct", arguments := "\x7b\x22search\x22:\x22zzz\x22\x7d" } }

/-- A first-round tool call requesting convertCurrencies for 100 USD to EUR. -/
def convertToolCall : ToolCall :=
  { function := { name := "convertCurrencies", arguments := "\x7b\x22currency\x22:\x22EUR\x22,\x22value\x22:100,\x22baseCurrency\x22:\x22USD\x22\x7d" } }

/-- A first-round tool call requesting getWeather for Paris. -/
def weatherToolCall : ToolCall :=
  { function := { name := "getWeather", arguments := "\x7b\x22city\x22:\x22Paris\x22\x7d" } }

/-- A first-round tool call requesting a tool no handler is registered for. -/
def stockToolCall : ToolCall :=
  { function := { name := "getStockPrice", arguments := "\x7b\x22ticker\x22:\x22ACME\x22\x7d" } }

/-- The parsed arguments of `convertToolCall`. -/
def convertArgs : ProductsService.FunctionArgs :=
  { search := none, currency := some "EUR", value := some 100, baseCurrency := some "USD" }

/-- An orchestrator environment whose first completion round requests
searchProduct with a query matching nothing, and whose handler is the real
`searchProduct` over the fixture rows. -/
def noMatchSearchEnv : ProductsService.Env :=
  { firstResponse := Except.ok { content := none, tool_calls := some [searchToolCall] },
    parseArgs := fun _ =>
      Except.ok { search := some "zzz", currency := none, value := none, baseCurrency := none },
    searchProductImpl := fun s =>
      match s with
      | some q => Except.ok (ProductsService.searchProduct exampleGetTime exampleRows q)
      | none => Except.error "search is undefined",
    convertCurrenciesImpl := fun _ _ _ => Except.error "Error converting currencies",
    secondResponse := fun _ => Except.ok (some "I could not find matching products.") }

/-- A valid-length prompt for the weather runs. -/
def weatherPrompt : String := "What is the weather in Paris right now?"

/-- An AiService environment whose first round requests getWeather for Paris
with parseable arguments, and whose two lookups succeed. -/
def weatherToolEnv : AiService.Env :=
  { firstResponse := Except.ok { content := none, tool_calls := some [weatherToolCall] },
    parseArgs := fun _ => Except.ok { city := some "Paris" },
    getWeatherImpl := fun _ =>
      { ok := true, city := some "Paris", temperature := some 18,
        description := some "clear sky", humidity := some 60, windSpeed := some 3,
        error := none },
    getPopulationImpl := fun _ =>
      { ok := none, city := some "Paris", population := some 2100000,
        description := some "clear sky", temperature := some 18, humidity := some 60,
        windSpeed := some 3, error := none },
    secondResponse := fun _ => Except.ok (some "It is 18 degrees in Paris.") }

/-- A valid-length prompt for the conversion runs. -/
def convertPrompt : String := "Convert 100 USD to EUR for me please."

/-- A ProductsService environment whose first round requests convertCurrencies
with parseable arguments and whose conversion handler rejects (as the real one
does on any upstream failure). -/
def failConvertEnv : ProductsService.Env :=
  { firstResponse := Except.ok { content := none, tool_calls := some [convertToolCall] },
    parseArgs := fun _ => Except.ok convertArgs,
    searchProductImpl := fun _ => Except.error "Error processing CSV file",
    convertCurrenciesImpl := fun _ _ _ => Except.error "Error converting currencies",
    secondResponse := fun _ => Except.ok (some "unused") }

/-- A valid-length prompt for the unknown-tool runs. -/
def unknownToolPrompt : String := "What is the stock price of ACME today?"

/-- A ProductsService environment whose first round requests a tool name with
no registered handler, with parseable arguments. -/
def unknownToolPEnv : ProductsService.Env :=
  { firstResponse := Except.ok { content := none, tool_calls := some [stockToolCall] },
    parseArgs := fun _ =>
      Except.ok { search := none, currency := none, value := none, baseCurrency := none },
    searchProductImpl := fun _ => Except.error "Error processing CSV file",
    convertCurrenciesImpl := fun _ _ _ => Except.error "Error converting currencies",
    secondResponse := fun _ => Except.ok (some "follow-up") }

/-- An AiService environment whose first round requests a tool name with no
registered handler, with parseable arguments. -/
def unknownToolAiEnv : AiService.Env :=
  { firstResponse := Except.ok { content := none, tool_calls := some [stockToolCall] },
    parseArgs := fun _ => Except.ok { city := none },
    getWeatherImpl := trivAiEnv.getWeatherImpl,
    getPopulationImpl := trivAiEnv.getPopulationImpl,
    secondResponse := fun _ => Except.ok (some "I cannot help with stocks.") }

/-- An AiService environment whose weather handler reports a failed outcome
(ok:false with an error message and undefined data fields). -/
def failWeatherEnv : AiService.Env :=
  { firstResponse := weatherToolEnv.firstResponse,
    parseArgs := weatherToolEnv.parseArgs,
    getWeatherImpl := fun _ =>
      { ok := false, city := none, temperature := none, description := none,
        humidity := none, windSpeed := none,
        error := some "Weather API error: Error fetching weather data" },
    getPopulationImpl := weatherToolEnv.getPopulationImpl,
    secondResponse := fun _ => Except.ok (some "Sorry, I could not fetch the weather.") }

/-! Theorems: one per claim, plus counterexamples and witnesses. -/

/-- The second-round await leaves the recorded events unchanged regardless of
the call outcome. -/
theorem ProductsService.finishRound2_snd (attempt : Except String (Option String))
    (events : List ProductsService.Event) :
    (ProductsService.finishRound2 attempt events).2 = events := by
  cases attempt <;> rfl

/-- An invalid prompt produces an error message from the schema. -/
theorem Dto.validate_isSome_of_invalid (prompt : String)
    (h : prompt.length < 10 ∨ 512 < prompt.length) :
    ∃ m, getPromptSchemaValidate prompt = some m := by
  unfold getPromptSchemaValidate
  rcases h with h | h
  · exact ⟨_, if_pos h⟩
  · rw [if_neg (by omega), if_pos h]
    exact ⟨_, rfl⟩

/-- C1 is false as stated: when the first round requests getWeather with valid
arguments, AiService.getPrompt also invokes the population handler (a handler
not corresponding to the requested tool), and the conversation passed to the
second round is the seed plus two appended function-role messages, not one. -/
theorem claim_C1_counterexample :
    (AiService.getPrompt weatherToolEnv weatherPrompt).2
      = [AiService.Event.round1 (AiService.createMessage weatherPrompt),
         AiService.Event.invokeWeather (some "Paris"),
         AiService.Event.invokePopulation (some "Paris"),
         AiService.Event.round2 (AiService.createMessage weatherPrompt ++
           AiService.createMessageWithTool "getWeather"
             (weatherToolEnv.getWeatherImpl (some "Paris"))
             (weatherToolEnv.getPopulationImpl (some "Paris")))]
    ∧ (AiService.createMessageWithTool "getWeather"
         (weatherToolEnv.getWeatherImpl (some "Paris"))
         (weatherToolEnv.getPopulationImpl (some "Paris"))).length = 2 := by
  constructor
  · rfl
  · rfl

/-- C1 (amended): in ProductsService.aiPrompt, a first tool call naming a
cataloged tool with parseable arguments invokes exactly that handler, exactly
once, with the parsed arguments, and any follow-up completion round receives
the seed conversation plus exactly one appended function-role message.  In
AiService.getPrompt, any tool request (whatever its name) invokes both
getWeather and getPopulation exactly once each with the parsed city, and the
follow-up round receives the seed plus exactly two appended function-role
messages. -/
theorem claim_C1_amended :
    (∀ (prompt : String) (content : Option String) (tc : ToolCall) (rest : List ToolCall)
        (pa2 : String → Except String ProductsService.FunctionArgs)
        (sp : Option String → Except String (List ProductsService.Product))
        (cv : Option String → Option String → Option ℚ →
          Except String ProductsService.ConvOutcome)
        (sr2 : List Message → Except String (Option String))
        (args : ProductsService.FunctionArgs),
        Dto.getPromptSchemaValidate prompt = none →
        tc.function.name = "searchProduct" →
        pa2 tc.function.arguments = Except.ok args →
        ((ProductsService.aiPrompt
            { firstResponse := Except.ok { content := content, tool_calls := some (tc :: rest) },
              parseArgs := pa2, searchProductImpl := sp, convertCurrenciesImpl := cv,
              secondResponse := sr2 } prompt).2.filter ProductsService.Event.isInvoke
            = [ProductsService.Event.invokeSearch args.search]
          ∧ ∀ ms, ProductsService.Event.round2 ms ∈
              (ProductsService.aiPrompt
                { firstResponse := Except.ok { content := content, tool_calls := some (tc :: rest) },
                  parseArgs := pa2, searchProductImpl := sp, convertCurrenciesImpl := cv,
                  secondResponse := sr2 } prompt).2 →
              ∃ c, ms = ProductsService.createMessage prompt ++
                [{ role := Role.function, name := some "searchProduct", content := c }]))
    ∧ (∀ (prompt : String) (content : Option String) (tc : ToolCall) (rest : List ToolCall)
        (pa2 : String → Except String ProductsService.FunctionArgs)
        (sp : Option String → Except String (List ProductsService.Product))
        (cv : Option String → Option String → Option ℚ →
          Except String ProductsService.ConvOutcome)
        (sr2 : List Message → Except String (Option String))
        (args : ProductsService.FunctionArgs),
        Dto.getPromptSchemaValidate prompt = none →
        tc.function.name = "convertCurrencies" →
        pa2 tc.function.arguments = Except.ok args →
        ((ProductsService.aiPrompt
            { firstResponse := Except.ok { content := content, tool_calls := some (tc :: rest) },
              parseArgs := pa2, searchProductImpl := sp, convertCurrenciesImpl := cv,
              secondResponse := sr2 } prompt).2.filter ProductsService.Event.isInvoke
            = [ProductsService.Event.invokeConvert args.baseCurrency args.currency args.value]
          ∧ ∀ ms, ProductsService.Event.round2 ms ∈
              (ProductsService.aiPrompt
                { firstResponse := Except.ok { content := content, tool_calls := some (tc :: rest) },
                  parseArgs := pa2, searchProductImpl := sp, convertCurrenciesImpl := cv,
                  secondResponse := sr2 } prompt).2 →
              ∃ c, ms = ProductsService.createMessage prompt ++
                [{ role := Role.function, name := some "convertCurrencies", content := c }]))
    ∧ (∀ (prompt : String) (content : Option String) (tc : ToolCall) (rest : List ToolCall)
        (pa : String → Except String AiService.PromptArgs)
        (gw : Option String → AiService.WeatherObj)
        (gp : Option String → AiService.PopulationObj)
        (sr : List Message → Except String (Option String))
        (args : AiService.PromptArgs),
        Dto.getPromptSchemaValidate prompt = none →
        pa tc.function.arguments = Except.ok args →
        (AiService.getPrompt
            { firstResponse := Except.ok { content := content, tool_calls := some (tc :: rest) },
              parseArgs := pa, getWeatherImpl := gw, getPopulationImpl := gp,
              secondResponse := sr } prompt).2
          = [AiService.Event.round1 (AiService.createMessage prompt),
             AiService.Event.invokeWeather args.city,
             AiService.Event.invokePopulation args.city,
             AiService.Event.round2 (AiService.createMessage prompt ++
               AiService.createMessageWithTool tc.function.name (gw args.city) (gp args.city))]
        ∧ (AiService.createMessageWithTool tc.function.name (gw args.city)
             (gp args.city)).length = 2) := by
  refine ⟨?_, ?_, ?_⟩
  · intro prompt content tc rest pa2 sp cv sr2 args hv hname hargs
    simp only [ProductsService.aiPrompt, hv, hname, hargs]
    cases hsp : sp args.search with
    | error e =>
      simp [hsp, ProductsService.Event.isInvoke]
    | ok products =>
      refine ⟨?_, ?_⟩
      · simp [ProductsService.finishRound2_snd, ProductsService.Event.isInvoke]
      · intro ms hms
        simp [ProductsService.finishRound2_snd] at hms
        exact ⟨_, hms⟩
  · intro prompt content tc rest pa2 sp cv sr2 args hv hname hargs
    have hne : tc.function.name ≠ "searchProduct" := by
      rw [hname]; decide
    simp only [ProductsService.aiPrompt, hv, hname, hargs, if_neg hne]
    cases hcv : cv args.baseCurrency args.currency args.value with
    | error e =>
      simp [hcv, ProductsService.Event.isInvoke]
    | ok converted =>
      refine ⟨?_, ?_⟩
      · simp [ProductsService.finishRound2_snd, ProductsService.Event.isInvoke]
      · intro ms hms
        simp [ProductsService.finishRound2_snd] at hms
        exact ⟨_, hms⟩
  · intro prompt content tc rest pa gw gp sr args hv hargs
    refine ⟨?_, rfl⟩
    simp only [AiService.getPrompt, hv, hargs]
    cases hsr : sr (AiService.createMessage prompt ++
        AiService.createMessageWithTool tc.function.name (gw args.city) (gp args.city)) with
    | error e => simp [hsr]
    | ok c => simp [hsr]

/-- Witness for C1 (amended): concrete runs of all three parts. -/
theorem claim_C1_amended_witness :
    ((ProductsService.aiPrompt noMatchSearchEnv examplePrompt).2.filter
        ProductsService.Event.isInvoke = [ProductsService.Event.invokeSearch (some "zzz")])
    ∧ ((ProductsService.aiPrompt failConvertEnv convertPrompt).2.filter
        ProductsService.Event.isInvoke
        = [ProductsService.Event.invokeConvert (some "USD") (some "EUR") (some 100)])
    ∧ (AiService.getPrompt weatherToolEnv weatherPrompt).2
        = [AiService.Event.round1 (AiService.createMessage weatherPrompt),
           AiService.Event.invokeWeather (some "Paris"),
           AiService.Event.invokePopulation (some "Paris"),
           AiService.Event.round2 (AiService.createMessage weatherPrompt ++
             AiService.createMessageWithTool "getWeather"
               (weatherToolEnv.getWeatherImpl (some "Paris"))
               (weatherToolEnv.getPopulationImpl (some "Paris")))] :=
  ⟨(claim_C1_amended.1 examplePrompt none searchToolCall
      [] noMatchSearchEnv.parseArgs noMatchSearchEnv.searchProductImpl
      noMatchSearchEnv.convertCurrenciesImpl noMatchSearchEnv.secondResponse
      { search := some "zzz", currency := none, value := none, baseCurrency := none }
      (by decide) rfl rfl).1,
   (claim_C1_amended.2.1 convertPrompt none convertToolCall
      [] failConvertEnv.parseArgs failConvertEnv.searchProductImpl
      failConvertEnv.convertCurrenciesImpl failConvertEnv.secondResponse
      convertArgs (by decide) rfl rfl).1,
   (claim_C1_amended.2.2 weatherPrompt none weatherToolCall
      [] weatherToolEnv.parseArgs weatherToolEnv.getWeatherImpl
      weatherToolEnv.getPopulationImpl weatherToolEnv.secondResponse
      { city := some "Paris" } (by decide) rfl).1⟩

/-- C2 evaluated at the failing input: a first tool call naming an
unregistered tool does not produce a structured ok:false failure.
ProductsService.aiPrompt falls through both name checks and returns undefined,
and AiService.getPrompt never checks the name at all and ends in ok:true. -/
theorem claim_C2_code_behavior :
    ProductsService.aiPrompt unknownToolPEnv unknownToolPrompt
      = (JsResult.undef,
         [ProductsService.Event.round1 (ProductsService.createMessage unknownToolPrompt)])
    ∧ (AiService.getPrompt unknownToolAiEnv unknownToolPrompt).1
      = JsResult.ok (some "I cannot help with stocks.") := by
  constructor
  · rfl
  · rfl

/-- C3 is false as stated: in ProductsService.aiPrompt a failed conversion
handler aborts the pipeline.  At this concrete run the handler rejects, no
follow-up completion round appears in the trace, and the top-level result is
ok:false, not ok:true. -/
theorem claim_C3_counterexample :
    ProductsService.aiPrompt failConvertEnv convertPrompt
      = (JsResult.fail "Error in OpenAI API: Error converting currencies",
         [ProductsService.Event.round1 (ProductsService.createMessage convertPrompt),
          ProductsService.Event.invokeConvert (some "USD") (some "EUR") (some 100)]) := by
  rfl

/-- C3 (amended): in AiService.getPrompt a tool handler reporting a failed
outcome (ok:false) does not abort: the two tool-result messages are still
appended, the follow-up completion round is still issued, and the top-level
result is ok with the round-2 content.  In ProductsService.aiPrompt, handler
failures are rejections: the pipeline aborts with ok:false and no follow-up
round is issued. -/
theorem claim_C3_amended :
    (∀ (prompt : String) (content : Option String) (tc : ToolCall) (rest : List ToolCall)
        (pa : String → Except String AiService.PromptArgs)
        (gw : Option String → AiService.WeatherObj)
        (gp : Option String → AiService.PopulationObj)
        (sr : List Message → Except String (Option String))
        (args : AiService.PromptArgs) (c : Option String),
        Dto.getPromptSchemaValidate prompt = none →
        pa tc.function.arguments = Except.ok args →
        (gw args.city).ok = false →
        sr (AiService.createMessage prompt ++
          AiService.createMessageWithTool tc.function.name (gw args.city) (gp args.city))
          = Except.ok c →
        AiService.getPrompt
          { firstResponse := Except.ok { content := content, tool_calls := some (tc :: rest) },
            parseArgs := pa, getWeatherImpl := gw, getPopulationImpl := gp,
            secondResponse := sr } prompt
          = (JsResult.ok c,
             [AiService.Event.round1 (AiService.createMessage prompt),
              AiService.Event.invokeWeather args.city,
              AiService.Event.invokePopulation args.city,
              AiService.Event.round2 (AiService.createMessage prompt ++
                AiService.createMessageWithTool tc.function.name (gw args.city)
                  (gp args.city))]))
    ∧ (∀ (prompt : String) (content : Option String) (tc : ToolCall) (rest : List ToolCall)
        (pa2 : String → Except String ProductsService.FunctionArgs)
        (sp : Option String → Except String (List ProductsService.Product))
        (cv : Option String → Option String → Option ℚ →
          Except String ProductsService.ConvOutcome)
        (sr2 : List Message → Except String (Option String))
        (args : ProductsService.FunctionArgs) (e : String),
        Dto.getPromptSchemaValidate prompt = none →
        tc.function.name = "convertCurrencies" →
        pa2 tc.function.arguments = Except.ok args →
        cv args.baseCurrency args.currency args.value = Except.error e →
        ProductsService.aiPrompt
          { firstResponse := Except.ok { content := content, tool_calls := some (tc :: rest) },
            parseArgs := pa2, searchProductImpl := sp, convertCurrenciesImpl := cv,
            secondResponse := sr2 } prompt
          = (JsResult.fail ("Error in OpenAI API: " ++ e),
             [ProductsService.Event.round1 (ProductsService.createMessage prompt),
              ProductsService.Event.invokeConvert args.baseCurrency args.currency
                args.value])) := by
  constructor
  · intro prompt content tc rest pa gw gp sr args c hv hargs hfail hsr
    simp only [AiService.getPrompt, hv, hargs, hsr]
  · intro prompt content tc rest pa2 sp cv sr2 args e hv hname hargs hcv
    have hne : tc.function.name ≠ "searchProduct" := by
      rw [hname]; decide
    simp only [ProductsService.aiPrompt, hv, hname, hargs, hcv, if_neg hne]
    simp

/-- Witness for C3 (amended): a concrete run with a failed weather lookup, and
the concrete aborting conversion run. -/
theorem claim_C3_amended_witness :
    AiService.getPrompt failWeatherEnv weatherPrompt
      = (JsResult.ok (some "Sorry, I could not fetch the weather."),
         [AiService.Event.round1 (AiService.createMessage weatherPrompt),
          AiService.Event.invokeWeather (some "Paris"),
          AiService.Event.invokePopulation (some "Paris"),
          AiService.Event.round2 (AiService.createMessage weatherPrompt ++
            AiService.createMessageWithTool "getWeather"
              (failWeatherEnv.getWeatherImpl (some "Paris"))
              (failWeatherEnv.getPopulationImpl (some "Paris")))])
    ∧ ProductsService.aiPrompt failConvertEnv convertPrompt
      = (JsResult.fail ("Error in OpenAI API: " ++ "Error converting currencies"),
         [ProductsService.Event.round1 (ProductsService.createMessage convertPrompt),
          ProductsService.Event.invokeConvert (some "USD") (some "EUR") (some 100)]) :=
  ⟨(claim_C3_amended.1 weatherPrompt none weatherToolCall
      [] failWeatherEnv.parseArgs failWeatherEnv.getWeatherImpl
      failWeatherEnv.getPopulationImpl failWeatherEnv.secondResponse
      { city := some "Paris" } (some "Sorry, I could not fetch the weather.")
      (by decide) rfl rfl rfl),
   (claim_C3_amended.2 convertPrompt none convertToolCall
      [] failConvertEnv.parseArgs failConvertEnv.searchProductImpl
      failConvertEnv.convertCurrenciesImpl failConvertEnv.secondResponse
      convertArgs "Error converting currencies" (by decide) rfl rfl rfl)⟩

/-- C4: both orchestrators depend only on the first tool call of the first
round: a run whose first round lists the calls tc :: rest is, result and event
trace alike, identical to the run whose first round lists only tc, so the
later requests are provably never dispatched. -/
theorem claim_C4 (prompt : String) (content : Option String) (tc : ToolCall)
    (rest : List ToolCall)
    (pa : String → Except String AiService.PromptArgs)
    (gw : Option String → AiService.WeatherObj)
    (gp : Option String → AiService.PopulationObj)
    (sr : List Message → Except String (Option String))
    (pa2 : String → Except String ProductsService.FunctionArgs)
    (sp : Option String → Except String (List ProductsService.Product))
    (cv : Option String → Option String → Option ℚ →
      Except String ProductsService.ConvOutcome)
    (sr2 : List Message → Except String (Option String)) :
    AiService.getPrompt
      { firstResponse := Except.ok { content := content, tool_calls := some (tc :: rest) },
        parseArgs := pa, getWeatherImpl := gw, getPopulationImpl := gp,
        secondResponse := sr } prompt
      = AiService.getPrompt
        { firstResponse := Except.ok { content := content, tool_calls := some [tc] },
          parseArgs := pa, getWeatherImpl := gw, getPopulationImpl := gp,
          secondResponse := sr } prompt
    ∧ ProductsService.aiPrompt
      { firstResponse := Except.ok { content := content, tool_calls := some (tc :: rest) },
        parseArgs := pa2, searchProductImpl := sp, convertCurrenciesImpl := cv,
        secondResponse := sr2 } prompt
      = ProductsService.aiPrompt
        { firstResponse := Except.ok { content := content, tool_calls := some [tc] },
          parseArgs := pa2, searchProductImpl := sp, convertCurrenciesImpl := cv,
          secondResponse := sr2 } prompt := by
  constructor <;> rfl

/-- C5: when the first completion round returns a direct answer with no tool
calls, both orchestrators return ok with exactly that content, and the event
trace contains only the first completion round: no tool handler is invoked and
no second completion round is issued. -/
theorem claim_C5 (prompt : String) (content : Option String)
    (pa : String → Except String AiService.PromptArgs)
    (gw : Option String → AiService.WeatherObj)
    (gp : Option String → AiService.PopulationObj)
    (sr : List Message → Except String (Option String))
    (pa2 : String → Except String ProductsService.FunctionArgs)
    (sp : Option String → Except String (List ProductsService.Product))
    (cv : Option String → Option String → Option ℚ →
      Except String ProductsService.ConvOutcome)
    (sr2 : List Message → Except String (Option String))
    (hv : Dto.getPromptSchemaValidate prompt = none) :
    AiService.getPrompt
      { firstResponse := Except.ok { content := content, tool_calls := none },
        parseArgs := pa, getWeatherImpl := gw, getPopulationImpl := gp,
        secondResponse := sr } prompt
      = (JsResult.ok content, [AiService.Event.round1 (AiService.createMessage prompt)])
    ∧ ProductsService.aiPrompt
      { firstResponse := Except.ok { content := content, tool_calls := none },
        parseArgs := pa2, searchProductImpl := sp, convertCurrenciesImpl := cv,
        secondResponse := sr2 } prompt
      = (JsResult.ok content,
         [ProductsService.Event.round1 (ProductsService.createMessage prompt)]) := by
  constructor
  · unfold AiService.getPrompt
    rw [hv]
  · unfold ProductsService.aiPrompt
    rw [hv]

/-- Witness for C5 at a concrete valid prompt and direct answer. -/
theorem claim_C5_witness :
    Dto.getPromptSchemaValidate examplePrompt = none
    ∧ AiService.getPrompt
      { firstResponse := Except.ok { content := some "Direct answer.", tool_calls := none },
        parseArgs := trivAiEnv.parseArgs, getWeatherImpl := trivAiEnv.getWeatherImpl,
        getPopulationImpl := trivAiEnv.getPopulationImpl,
        secondResponse := trivAiEnv.secondResponse } examplePrompt
      = (JsResult.ok (some "Direct answer."),
         [AiService.Event.round1 (AiService.createMessage examplePrompt)])
    ∧ ProductsService.aiPrompt
      { firstResponse := Except.ok { content := some "Direct answer.", tool_calls := none },
        parseArgs := trivPEnv.parseArgs, searchProductImpl := trivPEnv.searchProductImpl,
        convertCurrenciesImpl := trivPEnv.convertCurrenciesImpl,
        secondResponse := trivPEnv.secondResponse } examplePrompt
      = (JsResult.ok (some "Direct answer."),
         [ProductsService.Event.round1 (ProductsService.createMessage examplePrompt)]) :=
  ⟨by decide,
    (claim_C5 examplePrompt (some "Direct answer.") trivAiEnv.parseArgs trivAiEnv.getWeatherImpl
      trivAiEnv.getPopulationImpl trivAiEnv.secondResponse trivPEnv.parseArgs
      trivPEnv.searchProductImpl trivPEnv.convertCurrenciesImpl trivPEnv.secondResponse
      (by decide)).1,
    (claim_C5 examplePrompt (some "Direct answer.") trivAiEnv.parseArgs trivAiEnv.getWeatherImpl
      trivAiEnv.getPopulationImpl trivAiEnv.secondResponse trivPEnv.parseArgs
      trivPEnv.searchProductImpl trivPEnv.convertCurrenciesImpl trivPEnv.secondResponse
      (by decide)).2⟩

/-- C6: when the first completion round itself fails, both orchestrators
return the structured failure ok:false with the transport error message, do
not throw past their boundary, and the event trace shows no tool handler was
ever invoked. -/
theorem claim_C6 (prompt : String) (e : String)
    (pa : String → Except String AiService.PromptArgs)
    (gw : Option String → AiService.WeatherObj)
    (gp : Option String → AiService.PopulationObj)
    (sr : List Message → Except String (Option String))
    (pa2 : String → Except String ProductsService.FunctionArgs)
    (sp : Option String → Except String (List ProductsService.Product))
    (cv : Option String → Option String → Option ℚ →
      Except String ProductsService.ConvOutcome)
    (sr2 : List Message → Except String (Option String))
    (hv : Dto.getPromptSchemaValidate prompt = none) :
    AiService.getPrompt
      { firstResponse := Except.error e, parseArgs := pa, getWeatherImpl := gw,
        getPopulationImpl := gp, secondResponse := sr } prompt
      = (JsResult.fail ("Error in OpenAI API: " ++ e),
         [AiService.Event.round1 (AiService.createMessage prompt)])
    ∧ ProductsService.aiPrompt
      { firstResponse := Except.error e, parseArgs := pa2, searchProductImpl := sp,
        convertCurrenciesImpl := cv, secondResponse := sr2 } prompt
      = (JsResult.fail ("Error in OpenAI API: " ++ e),
         [ProductsService.Event.round1 (ProductsService.createMessage prompt)]) := by
  constructor
  · unfold AiService.getPrompt
    rw [hv]
  · unfold ProductsService.aiPrompt
    rw [hv]

/-- Witness for C6 at a concrete valid prompt and transport error. -/
theorem claim_C6_witness :
    Dto.getPromptSchemaValidate examplePrompt = none
    ∧ AiService.getPrompt
      { firstResponse := Except.error "network down", parseArgs := trivAiEnv.parseArgs,
        getWeatherImpl := trivAiEnv.getWeatherImpl,
        getPopulationImpl := trivAiEnv.getPopulationImpl,
        secondResponse := trivAiEnv.secondResponse } examplePrompt
      = (JsResult.fail ("Error in OpenAI API: " ++ "network down"),
         [AiService.Event.round1 (AiService.createMessage examplePrompt)])
    ∧ ProductsService.aiPrompt
      { firstResponse := Except.error "network down", parseArgs := trivPEnv.parseArgs,
        searchProductImpl := trivPEnv.searchProductImpl,
        convertCurrenciesImpl := trivPEnv.convertCurrenciesImpl,
        secondResponse := trivPEnv.secondResponse } examplePrompt
      = (JsResult.fail ("Error in OpenAI API: " ++ "network down"),
         [ProductsService.Event.round1 (ProductsService.createMessage examplePrompt)]) :=
  ⟨by decide,
    (claim_C6 examplePrompt "network down" trivAiEnv.parseArgs trivAiEnv.getWeatherImpl
      trivAiEnv.getPopulationImpl trivAiEnv.secondResponse trivPEnv.parseArgs
      trivPEnv.searchProductImpl trivPEnv.convertCurrenciesImpl trivPEnv.secondResponse
      (by decide)).1,
    (claim_C6 examplePrompt "network down" trivAiEnv.parseArgs trivAiEnv.getWeatherImpl
      trivAiEnv.getPopulationImpl trivAiEnv.secondResponse trivPEnv.parseArgs
      trivPEnv.searchProductImpl trivPEnv.convertCurrenciesImpl trivPEnv.secondResponse
      (by decide)).2⟩

/-- C7 is false as stated: the truthiness check on displayTitle excludes a
record with an empty title even when that title does contain the query (the
empty query) as a case-insensitive substring, so the search does not return
every record whose matched field contains the query. -/
theorem claim_C7_counterexample :
    ProductsService.jsIncludes (jsToLower emptyTitleRow.displayTitle) (jsToLower "") = true
    ∧ ProductsService.searchProduct (fun _ => 0) [emptyTitleRow] "" = [] := by
  constructor
  · decide
  · decide

/-- C7 (amended): record search returns exactly the records whose displayTitle
is non-empty (the JS truthiness guard) and contains the query as a
case-insensitive substring, ordered by creation timestamp descending; the
concrete shirt query returns [Shirt Deluxe, Blue Shirt]; an empty match set is
a successful outcome, both at the handler (an empty list, not an error) and at
the orchestrator (the run still ends in ok:true). -/
theorem claim_C7_amended :
    (∀ (getTime : String → Int) (rows : List ProductsService.Product) (q : String),
        (ProductsService.searchProduct getTime rows q).Perm
          (rows.filter (ProductsService.rowMatches q))
        ∧ List.Sorted (ProductsService.dateDesc getTime)
            (ProductsService.searchProduct getTime rows q))
    ∧ ProductsService.searchProduct exampleGetTime exampleRows "shirt" = [shirtDeluxe, blueShirt]
    ∧ ProductsService.searchProduct exampleGetTime exampleRows "zzz" = []
    ∧ (ProductsService.aiPrompt noMatchSearchEnv examplePrompt).1
        = JsResult.ok (some "I could not find matching products.") := by
  refine ⟨fun getTime rows q => ⟨List.perm_insertionSort _ _, ?_⟩, ?_, ?_, ?_⟩
  · haveI : IsTotal ProductsService.Product (ProductsService.dateDesc getTime) :=
      ⟨fun a b => le_total (getTime b.createDate) (getTime a.createDate)⟩
    haveI : IsTrans ProductsService.Product (ProductsService.dateDesc getTime) :=
      ⟨fun a b c hab hbc => le_trans hbc hab⟩
    exact List.sorted_insertionSort _ _
  · decide
  · decide
  · rfl

/-- C8 is false as stated: when the upstream quotes an exchange rate of
exactly 0, the conversion does not return convertedValue = value × 0; the
JS-falsy check on the quoted rate makes it raise instead. -/
theorem claim_C8_counterexample :
    ProductsService.convertCurrencies (fun _ _ => Except.ok zeroRateResponse) "USD" "EUR" 100
      = Except.error "Error converting currencies"
    ∧ ProductsService.convertCurrencies (fun _ _ => Except.ok zeroRateResponse) "USD" "EUR" 100
      ≠ Except.ok { currency := "EUR", value := 100, convertedValue := 100 * 0 } := by
  refine ⟨rfl, ?_⟩
  intro h
  exact Except.noConfusion h

/-- C8 (amended): whenever the upstream quotes a nonzero exchange rate r for
the target currency, the conversion returns convertedValue = value × r with no
rounding; in particular value 100 at rate 9/10 converts to exactly 90. -/
theorem claim_C8_amended
    (fetchRates : String → String → Except String ProductsService.FetchResponse)
    (base currency : String) (value rate : ℚ) (response : ProductsService.FetchResponse)
    (hf : fetchRates base currency = Except.ok response)
    (hok : response.ok = true)
    (hrate : response.data currency = some rate)
    (hnz : rate ≠ 0) :
    ProductsService.convertCurrencies fetchRates base currency value
      = Except.ok { currency := currency, value := value, convertedValue := value * rate }
    ∧ ProductsService.convertCurrencies exampleFetch "USD" "EUR" 100
      = Except.ok { currency := "EUR", value := 100, convertedValue := 90 } := by
  constructor
  · unfold ProductsService.convertCurrencies
    rw [hf]
    simp [hok, hrate, hnz]
  · unfold ProductsService.convertCurrencies exampleFetch exampleResponse
    norm_num

/-- Witness for C8 (amended) at the concrete 100 USD to EUR run at rate 9/10. -/
theorem claim_C8_witness :
    ProductsService.convertCurrencies exampleFetch "USD" "EUR" 100
      = Except.ok { currency := "EUR", value := 100, convertedValue := 100 * (9 / 10 : ℚ) } :=
  (claim_C8_amended exampleFetch "USD" "EUR" 100 (9 / 10) exampleResponse rfl rfl rfl
    (by norm_num)).1

/-- C9: a prompt that is not a string of length 10..512 makes both entry
points throw a Validation error Error past their own boundary before any
completion round (the event trace is empty), instead of returning a
structured ok:false result. -/
theorem claim_C9 (prompt : String) (envA : AiService.Env) (envP : ProductsService.Env)
    (h : prompt.length < 10 ∨ 512 < prompt.length) :
    (∃ m, AiService.getPrompt envA prompt = (JsResult.thrown ("Validation error: " ++ m), []))
    ∧ (∃ m, ProductsService.aiPrompt envP prompt
        = (JsResult.thrown ("Validation error: " ++ m), [])) := by
  obtain ⟨m, hm⟩ := Dto.validate_isSome_of_invalid prompt h
  refine ⟨⟨m, ?_⟩, ⟨m, ?_⟩⟩
  · unfold AiService.getPrompt
    rw [hm]
  · unfold ProductsService.aiPrompt
    rw [hm]

/-- Witness for C9 at the concrete five-character prompt. -/
theorem claim_C9_witness :
    ("short".length < 10 ∨ 512 < "short".length)
    ∧ (∃ m, AiService.getPrompt trivAiEnv "short"
        = (JsResult.thrown ("Validation error: " ++ m), []))
    ∧ (∃ m, ProductsService.aiPrompt trivPEnv "short"
        = (JsResult.thrown ("Validation error: " ++ m), [])) :=
  ⟨by decide, (claim_C9 "short" trivAiEnv trivPEnv (by decide)).1,
    (claim_C9 "short" trivAiEnv trivPEnv (by decide)).2⟩

/-- C10: a quoted exchange rate of exactly 0 is handled identically to the
currency being absent from the response, and the operation errors instead of
returning a converted value of 0. -/
theorem claim_C10 (base currency : String) (value : ℚ)
    (zeroResp absentResp : ProductsService.FetchResponse)
    (hok0 : zeroResp.ok = true) (hokA : absentResp.ok = true)
    (h0 : zeroResp.data currency = some 0) (hA : absentResp.data currency = none) :
    ProductsService.convertCurrencies (fun _ _ => Except.ok zeroResp) base currency value
      = ProductsService.convertCurrencies (fun _ _ => Except.ok absentResp) base currency value
    ∧ ProductsService.convertCurrencies (fun _ _ => Except.ok zeroResp) base currency value
      = Except.error "Error converting currencies" := by
  unfold ProductsService.convertCurrencies
  simp [hok0, hokA, h0, hA]

/-- Witness for C10 at the concrete zero-rate and absent-rate responses. -/
theorem claim_C10_witness :
    ProductsService.convertCurrencies (fun _ _ => Except.ok zeroRateResponse) "USD" "EUR" 100
      = ProductsService.convertCurrencies (fun _ _ => Except.ok absentRateResponse) "USD" "EUR" 100
    ∧ ProductsService.convertCurrencies (fun _ _ => Except.ok zeroRateResponse) "USD" "EUR" 100
      = Except.error "Error converting currencies" :=
  claim_C10 "USD" "EUR" 100 zeroRateResponse absentRateResponse rfl rfl rfl rfl

end Wizybot
